import Mathlib

/-!
Verification of the detection / lock state machine implemented in
`src/python_detector/tetra_detector_app.c` (the canonical variant of the
program, with explicit radio-session begin/end).

Shallow embedding choices:
* Signal strengths (RSSI, baselines, thresholds) are modelled as `ℚ`;
  the C code computes thresholds with `float` arithmetic but every claim
  is about the algebraic structure and the order of these expressions,
  which ℚ reflects exactly.
* Time is in ticks, modelled as `Nat`; `furi_ms_to_ticks` runs at the
  1 kHz tick rate, so `ticks` is the identity on milliseconds.  The C
  code subtracts `uint32_t` tick counts; for a monotone clock and a
  `lock_start` taken from an earlier `now` this agrees with `Nat`
  subtraction (no wrap within a run shorter than 2^32 ms).
* One iteration of the main `while` loop reads the clock once
  (`uint32_t now = furi_get_tick()`), and the code uses that single
  value for the whole iteration; accordingly a loop iteration is
  modelled as happening at one instant `now`.
* The radio, and the asynchronously-delivered user input that mutates
  `app.free_scan`, `app.sens` and `app.exit` from the input callback,
  are modelled as oracles indexed by the dwell-step number: the value
  the oracle yields at index `i` is the value the program observes when
  dwell step `i` reads the corresponding field or samples the radio.
* `persist` busy-polls the radio for a wall-clock slot; it is modelled
  over the list of RSSI readings the radio would yield at the
  successive poll instants of that slot.
-/

namespace TetraDetector

/-- MIN_RSSI_DBM from the source header (-80.0f). -/
def MIN_RSSI_DBM : ℚ := -80

/-- THRESH_DB from the source header (8). -/
def THRESH_DB : ℚ := 8

/-- SLOT_MS from the source header (14). -/
def SLOT_MS : Nat := 14

/-- FRAME_MS from the source header (57). -/
def FRAME_MS : Nat := 57

/-- UP_START_FREQ from the source header (380000000U). -/
def UP_START_FREQ : Nat := 380000000

/-- UP_END_FREQ from the source header (385000000U). -/
def UP_END_FREQ : Nat := 385000000

/-- FREQ_STEP from the source header (25000U). -/
def FREQ_STEP : Nat := 25000

/-- UP_NUM_CH, computed exactly as the C macro does. -/
def UP_NUM_CH : Nat := (UP_END_FREQ - UP_START_FREQ) / FREQ_STEP + 1

/-- The fixed channel list STATIC_FREQS from the source, in order. -/
def STATIC_FREQS : List Nat :=
  [389540000, 388790000, 389170000,
   380450000, 380425000, 380400000,
   379650000, 380500000, 379625000,
   380375000, 379375000, 380325000,
   380300000, 379300000, 380025000,
   384437500, 384712500]

/-- STATIC_CH: the number of entries of STATIC_FREQS. -/
def STATIC_CH : Nat := STATIC_FREQS.length

/-- LOCK_HOLD_MS from the source header (20000). -/
def LOCK_HOLD_MS : Nat := 20000

/-- LOCK_RSSI_DROP from the source header (5.0f). -/
def LOCK_RSSI_DROP : ℚ := 5

/-- The helper `ticks` wraps `furi_ms_to_ticks`; at the 1 kHz tick rate
it is the identity on milliseconds. -/
def ticks (ms : Nat) : Nat := ms

/-- The body of `persist` (source lines 75-81): poll the radio until the
slot ends, returning false as soon as a reading is strictly below the
threshold, and true if the slot expires without one.  `samples` is the
sequence of readings the radio yields at the successive poll instants
of the slot. -/
def persist (threshold : ℚ) : List ℚ → Bool
  | [] => true
  | r :: rest => if r < threshold then false else persist threshold rest

/-- How many radio readings `persist` actually consumes before
returning: it stops at the first reading strictly below the
threshold. -/
def samplesTaken (threshold : ℚ) : List ℚ → Nat
  | [] => 0
  | r :: rest => if r < threshold then 1 else samplesTaken threshold rest + 1

/-- The InputKeyRight branch of `input_cb` (source line 96):
`sens = (sens < 5 ? sens + 1 : 1)`. -/
def cycleSens (sens : Int) : Int := if sens < 5 then sens + 1 else 1

/-- The InputKeyLeft branch of `input_cb` (source line 92):
`free_scan = !free_scan`. -/
def toggleScan (free_scan : Bool) : Bool := !free_scan

/-- The InputKeyUp branch of `input_cb` (source line 88):
`mode = (mode + 1) % 6`. -/
def cycleMode (mode : Nat) : Nat := (mode + 1) % 6

/-- The non-locked threshold expression of the Scanning branch
(source line 254): `thr = base + THRESH_DB - app.sens`. -/
def scanThreshold (base sens : ℚ) : ℚ := base + THRESH_DB - sens

/-- The locked-state threshold expression of the Locked branch
(source line 237): `thr = base + THRESH_DB - app.sens - LOCK_RSSI_DROP`. -/
def lockedThreshold (base sens : ℚ) : ℚ := base + THRESH_DB - sens - LOCK_RSSI_DROP

/-- The mutable fields of `AppCtx` that the detection loop reads and
writes (source lines 45-64), minus the ones owned by the input
callback (which are modelled as oracles) and the I/O handles. -/
structure AppSt where
  locked : Bool
  lock_start : Nat
  last_freq : Nat
  last_rssi : ℚ
  last_pk : Bool
deriving Repr, DecidableEq

/-- The initial `AppCtx` field values from the initializer of
`python_detector_app` (source lines 182-195). -/
def initAppSt : AppSt :=
  { locked := false
    lock_start := 0
    last_freq := UP_START_FREQ
    last_rssi := MIN_RSSI_DBM
    last_pk := false }

/-- The environment one Scanning pass runs in.  `freeScanCnt` is the
value of `app.free_scan` observed when the pass length `cnt` is
computed (source line 249); the per-step oracles give the values the
program observes when dwell step `i` reads the corresponding field or
samples the radio (the input callback may change `free_scan`, `sens`
and `exit` between any two reads). -/
structure ScanEnv where
  freeScanCnt : Bool
  freeScan : Nat → Bool
  sens : Nat → ℚ
  exitAt : Nat → Bool
  r0 : Nat → ℚ
  slot : Nat → List ℚ
  baseline : List ℚ

/-- The pass length `cnt = app.free_scan ? UP_NUM_CH : STATIC_CH`
(source line 249). -/
def scanCnt (free_scan : Bool) : Nat := if free_scan then UP_NUM_CH else STATIC_CH

/-- The frequency dwell step `i` tunes to (source line 251):
`freq = app.free_scan ? (UP_START_FREQ + i*FREQ_STEP) : STATIC_FREQS[i]`.
A read past the end of STATIC_FREQS is undefined behaviour in C; the
model yields the `getD` default 0 there (see the bounds theorem). -/
def stepFreq (free_scan : Bool) (i : Nat) : Nat :=
  if free_scan then UP_START_FREQ + i * FREQ_STEP else STATIC_FREQS.getD i 0

/-- The baseline dwell step `i` uses (source line 253):
`base = app.free_scan ? app.baseline[i] : MIN_RSSI_DBM`. -/
def stepBase (baseline : List ℚ) (free_scan : Bool) (i : Nat) : ℚ :=
  if free_scan then baseline.getD i 0 else MIN_RSSI_DBM

/-- The detection test of dwell step `i` (source line 255):
`pk = (r0 > thr) && persist(&app, thr)` with the non-locked threshold;
the `&&` short-circuit means `persist` only runs when the instantaneous
sample exceeds the threshold. -/
def stepPk (env : ScanEnv) (i : Nat) : Bool :=
  let thr := scanThreshold (stepBase env.baseline (env.freeScan i) i) (env.sens i)
  if thr < env.r0 i then persist thr (env.slot i) else false

/-- The Scanning `for` loop (source lines 250-266), starting at step
`i` with `rem` iterations left.  Returns the final state, the number
of one-shot audiovisual alerts emitted, and the list of
(step index, tuned frequency) pairs for the dwell steps visited.  On a
confirmed detection the code sets `locked`, `lock_start = now`,
`last_freq = freq`, emits the alert and breaks out of the loop without
touching `last_rssi`/`last_pk`. -/
def scanSteps (env : ScanEnv) (now : Nat) :
    AppSt → Nat → Nat → AppSt × Nat × List (Nat × Nat)
  | st, _, 0 => (st, 0, [])
  | st, i, rem + 1 =>
    if env.exitAt i then (st, 0, [])
    else
      let freq := stepFreq (env.freeScan i) i
      let pk := stepPk env i
      if pk then
        ({ st with locked := true, lock_start := now, last_freq := freq },
         1, [(i, freq)])
      else
        let st1 := { st with last_rssi := env.r0 i, last_freq := freq, last_pk := pk }
        let r := scanSteps env now st1 (i + 1) rem
        (r.1, r.2.1, (i, freq) :: r.2.2)

/-- One full Scanning pass: the loop of source lines 249-266, with the
pass length latched from `free_scan` before the first step. -/
def scanPass (env : ScanEnv) (now : Nat) (st : AppSt) : AppSt × Nat × List (Nat × Nat) :=
  scanSteps env now st 0 (scanCnt env.freeScanCnt)

/-- The environment one Locked-state step runs in: the values of the
input-owned fields observed during this step, the instantaneous sample,
the slot samples for `persist`, and the calibrated baseline table. -/
structure LockEnv where
  freeScan : Bool
  sens : ℚ
  r0 : ℚ
  slot : List ℚ
  baseline : List ℚ

/-- The baseline index used in the Locked branch (source line 235):
`(freq - UP_START_FREQ)/FREQ_STEP` in `uint32_t` arithmetic, so a
frequency below UP_START_FREQ wraps modulo 2^32. -/
def lockedBaseIdx (freq : Nat) : Nat :=
  ((freq + 2 ^ 32 - UP_START_FREQ) % 2 ^ 32) / FREQ_STEP

/-- The re-confirmation test of the Locked branch (source lines
233-238) for a machine locked on `freq`: the locked-state threshold
with the hysteresis drop, then `pk = (r0 > thr) && persist(&app, thr)`. -/
def lockedPkAt (env : LockEnv) (freq : Nat) : Bool :=
  let base :=
    if env.freeScan then env.baseline.getD (lockedBaseIdx freq) 0 else MIN_RSSI_DBM
  let thr := lockedThreshold base env.sens
  if thr < env.r0 then persist thr env.slot else false

/-- One Locked-state step (source lines 231-246): re-tune to
`last_freq`, re-confirm with the hysteresis threshold; on confirmation
reset `lock_start = now`, otherwise unlock when
`now - lock_start > ticks(LOCK_HOLD_MS)`; finally update the
last-observed reading.  No alert is emitted in this branch. -/
def lockedStep (env : LockEnv) (now : Nat) (st : AppSt) : AppSt :=
  let freq := st.last_freq
  let pk := lockedPkAt env freq
  let st1 :=
    if pk then { st with lock_start := now }
    else if ticks LOCK_HOLD_MS < now - st.lock_start then { st with locked := false }
    else st
  { st1 with last_rssi := env.r0, last_freq := freq, last_pk := pk }

/-- One iteration of the main `while(!app.exit)` loop (source lines
228-267) at instant `now`: the Locked branch when `app.locked`, one
Scanning pass otherwise.  The second component is the number of
one-shot audiovisual alerts the iteration emits. -/
def machineStep (lenv : LockEnv) (senv : ScanEnv) (now : Nat) (st : AppSt) :
    AppSt × Nat :=
  if st.locked then (lockedStep lenv now st, 0)
  else ((scanPass senv now st).1, (scanPass senv now st).2.1)

/-- Folding Locked-state steps over a trace of (now, environment)
pairs, earliest first. -/
def runLocked : List (Nat × LockEnv) → AppSt → AppSt
  | [], st => st
  | (now, env) :: rest, st => runLocked rest (lockedStep env now st)

/-- One round of a continuously re-confirmed Locked execution: some
re-check steps that fail to confirm, then one step that confirms. -/
structure LockedRound where
  fails : List (Nat × LockEnv)
  confirmNow : Nat
  confirmEnv : LockEnv

/-- The steps of a round, earliest first. -/
def roundSteps (r : LockedRound) : List (Nat × LockEnv) :=
  r.fails ++ [(r.confirmNow, r.confirmEnv)]

/-- The steps of a list of rounds, earliest first. -/
def roundsSteps (rs : List LockedRound) : List (Nat × LockEnv) :=
  (rs.map roundSteps).flatten

/-- A round is well-formed for a machine locked on `f` whose last
confirmation was at `ls` when: its failing steps indeed fail to
confirm and sit between `ls` and the confirming step in time, its
confirming step indeed confirms, and the new confirmation comes
strictly less than LOCK_HOLD after the previous one. -/
def roundOk (f ls : Nat) (r : LockedRound) : Prop :=
  (∀ p ∈ r.fails, lockedPkAt p.2 f = false ∧ ls ≤ p.1 ∧ p.1 ≤ r.confirmNow) ∧
  lockedPkAt r.confirmEnv f = true ∧
  ls ≤ r.confirmNow ∧ r.confirmNow - ls < ticks LOCK_HOLD_MS

/-- A Locked execution in which successive confirmations are always
separated by less than LOCK_HOLD_MS: each round confirms within the
hold window of the previous confirmation. -/
def roundsOk (f ls : Nat) : List LockedRound → Prop
  | [] => True
  | r :: rest => roundOk f ls r ∧ roundsOk f r.confirmNow rest

/-- Startup collaborator availability (source lines 197-215): the gui
record, the notification record, the registry radio device, and the
device `begin` call. -/
structure StartupEnv where
  guiOk : Bool
  notifOk : Bool
  deviceFound : Bool
  beginOk : Bool
deriving DecidableEq

/-- What startup reached: the early-return code if any (source
lines 199, 207, 214), whether the calibration loop (lines 218-221)
ran, and whether the scan loop (line 228) was entered. -/
structure StartupOutcome where
  retCode : Option Int
  calibrated : Bool
  scanLoopEntered : Bool
deriving DecidableEq, Repr

/-- The startup sequence of `python_detector_app` (source lines
197-228): fail with -1 if gui or notification records are unavailable,
then if no registry radio device is found, then if the device `begin`
fails; only then calibrate and enter the scan loop.  Each failure
returns before calibration. -/
def startup (e : StartupEnv) : StartupOutcome :=
  if !e.guiOk || !e.notifOk then
    { retCode := some (-1), calibrated := false, scanLoopEntered := false }
  else if !e.deviceFound then
    { retCode := some (-1), calibrated := false, scanLoopEntered := false }
  else if !e.beginOk then
    { retCode := some (-1), calibrated := false, scanLoopEntered := false }
  else
    { retCode := none, calibrated := true, scanLoopEntered := true }

/-- A flat baseline table: every calibrated channel reads -80 dBm. -/
def flatBaseline : List ℚ := List.replicate UP_NUM_CH MIN_RSSI_DBM

/-- A concrete Scanning environment in which the very first dwell step
of a Static-mode pass detects: the instantaneous sample is 0 dBm
(above the -75 threshold) and the persistence slot yields no
sub-threshold sample. -/
def envDetect : ScanEnv :=
  { freeScanCnt := false
    freeScan := fun _ => false
    sens := fun _ => 3
    exitAt := fun _ => false
    r0 := fun _ => 0
    slot := fun _ => [0, 0, 0]
    baseline := flatBaseline }

/-- The state after a pass of `envDetect` at tick 0 starting from the
initial state: locked on STATIC_FREQS[0] with `lock_start = 0`. -/
def stLocked : AppSt := (scanPass envDetect 0 initAppSt).1

/-- A concrete Locked-state environment in which re-confirmation
fails: the instantaneous sample -80 does not exceed the locked
threshold -80 (Static scan mode, sensitivity 3). -/
def lockEnvQuiet : LockEnv :=
  { freeScan := false
    sens := 3
    r0 := -80
    slot := []
    baseline := flatBaseline }

/-- A concrete Scanning environment for a Static-mode pass in which no
step detects and `free_scan` stays false throughout. -/
def envStaticPass : ScanEnv :=
  { freeScanCnt := false
    freeScan := fun _ => false
    sens := fun _ => 3
    exitAt := fun _ => false
    r0 := fun _ => MIN_RSSI_DBM
    slot := fun _ => []
    baseline := flatBaseline }

/-- The pass of `envStaticPass` cut short by an exit request arriving
before dwell step 2 (the for-loop checks `!app.exit` before every
step), so the pass visits exactly steps 0 and 1. -/
def envStaticShort : ScanEnv :=
  { envStaticPass with exitAt := fun i => decide (2 <= i) }

/-- The same short pass as `envStaticShort` except that the user
toggles `free_scan` to true after dwell step 0, so step 1 observes
`free_scan = true`. -/
def envToggledShort : ScanEnv :=
  { envStaticShort with freeScan := fun i => decide (1 <= i) }

/-- A pass whose length was latched with `free_scan = true`
(cnt = UP_NUM_CH = 201) and where the user toggles `free_scan` back to
false before dwell step 17, so steps 17..200 take the Static branch
and index STATIC_FREQS past its end. -/
def envMixedPass : ScanEnv :=
  { freeScanCnt := true
    freeScan := fun i => decide (i < 17)
    sens := fun _ => 3
    exitAt := fun _ => false
    r0 := fun _ => MIN_RSSI_DBM
    slot := fun _ => []
    baseline := flatBaseline }

/-- A concrete Locked-state environment in which re-confirmation
succeeds: the instantaneous sample 0 exceeds the locked threshold -80
and the slot sample stays above it. -/
def lockEnvConfirm : LockEnv :=
  { freeScan := false
    sens := 3
    r0 := 0
    slot := [0]
    baseline := flatBaseline }

/-- The timestamp of the last confirmation after a list of rounds,
starting from `ls`. -/
def roundsLast (ls : Nat) : List LockedRound → Nat
  | [] => ls
  | r :: rest => roundsLast r.confirmNow rest

/-- persist returns true exactly when every reading the radio yields
during the slot is at or above the threshold. -/
theorem persist_true_iff (t : ℚ) (l : List ℚ) :
    persist t l = true ↔ ∀ r ∈ l, t ≤ r := by
  induction l with
  | nil => simp [persist]
  | cons r rest ih =>
    by_cases h : r < t
    · simp only [persist, if_pos h, List.mem_cons]
      constructor
      · intro hfalse; cases hfalse
      · intro hall; exact absurd (hall r (Or.inl rfl)) (not_le.mpr h)
    · simp [persist, if_neg h, ih, not_lt.mp h]

/-- persist short-circuits: at the first sub-threshold reading it
returns false having consumed exactly the readings up to and including
that one. -/
theorem persist_shortcircuit (t : ℚ) (pre : List ℚ) (r : ℚ) (post : List ℚ)
    (hpre : ∀ x ∈ pre, t ≤ x) (hr : r < t) :
    persist t (pre ++ r :: post) = false ∧
    samplesTaken t (pre ++ r :: post) = pre.length + 1 := by
  induction pre with
  | nil => simp [persist, samplesTaken, hr]
  | cons x xs ih =>
    have hx : t ≤ x := hpre x (by simp)
    have h1 := ih (fun y hy => hpre y (by simp [hy]))
    simp [persist, samplesTaken, not_lt.mpr hx, h1.1, h1.2]

/-- A Scanning pass segment in which no step detects and no exit
request arrives: the state stays unlocked, no alert is emitted, and
the steps visited are exactly the indices of the segment, each tuned
to the frequency selected by the scan-mode flag observed at that
step. -/
theorem scanSteps_no_pk (env : ScanEnv) (now : Nat) (st : AppSt) (i rem : Nat)
    (hnopk : ∀ j, i ≤ j → j < i + rem → stepPk env j = false)
    (hnoexit : ∀ j, i ≤ j → j < i + rem → env.exitAt j = false) :
    (scanSteps env now st i rem).1.locked = st.locked ∧
    (scanSteps env now st i rem).2.1 = 0 ∧
    (scanSteps env now st i rem).2.2 =
      (List.range' i rem).map (fun j => (j, stepFreq (env.freeScan j) j)) := by
  induction rem generalizing i st with
  | zero => simp [scanSteps]
  | succ rem ih =>
    have hx : env.exitAt i = false := hnoexit i le_rfl (by omega)
    have hp : stepPk env i = false := hnopk i le_rfl (by omega)
    have ih1 := ih
      { st with
        last_rssi := env.r0 i
        last_freq := stepFreq (env.freeScan i) i
        last_pk := stepPk env i } (i + 1)
      (fun j h1 h2 => hnopk j (by omega) (by omega))
      (fun j h1 h2 => hnoexit j (by omega) (by omega))
    simp only [scanSteps, hx, hp, Bool.false_eq_true, if_false, List.range'_succ,
      List.map_cons]
    rw [hp] at ih1
    exact ⟨ih1.1, ih1.2.1, congrArg _ ih1.2.2⟩

/-- A Scanning pass segment whose first detecting step is `k`: the
machine locks on step k's frequency with `lock_start = now`, emits
exactly one alert, and visits exactly the steps up to and including
`k`. -/
theorem scanSteps_first_pk (env : ScanEnv) (now : Nat) (st : AppSt) (i rem k : Nat)
    (hik : i ≤ k) (hk : k < i + rem)
    (hfirst : ∀ j, i ≤ j → j < k → stepPk env j = false)
    (hpk : stepPk env k = true)
    (hexit : ∀ j, i ≤ j → j ≤ k → env.exitAt j = false) :
    (scanSteps env now st i rem).1.locked = true ∧
    (scanSteps env now st i rem).1.lock_start = now ∧
    (scanSteps env now st i rem).1.last_freq = stepFreq (env.freeScan k) k ∧
    (scanSteps env now st i rem).2.1 = 1 ∧
    (scanSteps env now st i rem).2.2 =
      (List.range' i (k + 1 - i)).map (fun j => (j, stepFreq (env.freeScan j) j)) := by
  induction rem generalizing i st with
  | zero => omega
  | succ rem ih =>
    have hx : env.exitAt i = false := hexit i le_rfl hik
    rcases Nat.eq_or_lt_of_le hik with heq | hlt
    · subst heq
      have h1 : i + 1 - i = 1 := by omega
      simp [scanSteps, hx, hpk, h1, List.range'_succ]
    · have hp : stepPk env i = false := hfirst i le_rfl hlt
      have ih1 := ih
        { st with
          last_rssi := env.r0 i
          last_freq := stepFreq (env.freeScan i) i
          last_pk := false } (i + 1)
        (by omega) (by omega)
        (fun j h1 h2 => hfirst j (by omega) h2)
        (fun j h1 h2 => hexit j (by omega) h2)
      simp only [scanSteps, hx, hp, Bool.false_eq_true, if_false]
      refine ⟨ih1.1, ih1.2.1, ih1.2.2.1, ih1.2.2.2.1, ?_⟩
      have hr : k + 1 - i = (k + 1 - (i + 1)) + 1 := by omega
      rw [hr, List.range'_succ, List.map_cons]
      exact congrArg _ ih1.2.2.2.2

/-- A Scanning pass starting unlocked emits an alert exactly when it
ends locked. -/
theorem scanSteps_alerts (env : ScanEnv) (now : Nat) (st : AppSt) (i rem : Nat)
    (hl : st.locked = false) :
    (scanSteps env now st i rem).2.1 =
      (if (scanSteps env now st i rem).1.locked = true then 1 else 0) := by
  induction rem generalizing i st with
  | zero => simp [scanSteps, hl]
  | succ rem ih =>
    simp only [scanSteps]
    by_cases hx : env.exitAt i
    · simp [hx, hl]
    · by_cases hp : stepPk env i
      · simp [hx, hp]
      · simp only [hx, hp, Bool.false_eq_true, if_false]
        exact ih
          { st with
            last_rssi := env.r0 i
            last_freq := stepFreq (env.freeScan i) i
            last_pk := false } (i + 1) hl

theorem runLocked_append (a b : List (Nat × LockEnv)) (st : AppSt) :
    runLocked (a ++ b) st = runLocked b (runLocked a st) := by
  induction a generalizing st with
  | nil => simp [runLocked]
  | cons p rest ih => simp [runLocked, ih]

/-- A Locked step that neither confirms nor has exceeded the hold
window leaves the lock fields unchanged. -/
theorem lockedStep_fail_keep (env : LockEnv) (now : Nat) (st : AppSt)
    (hpk : lockedPkAt env st.last_freq = false)
    (hin : ¬ ticks LOCK_HOLD_MS < now - st.lock_start) :
    (lockedStep env now st).locked = st.locked ∧
    (lockedStep env now st).lock_start = st.lock_start ∧
    (lockedStep env now st).last_freq = st.last_freq := by
  simp [lockedStep, hpk, hin]

/-- A Locked step that confirms keeps the lock and resets the
confirmation timestamp to `now`. -/
theorem lockedStep_confirm (env : LockEnv) (now : Nat) (st : AppSt)
    (hpk : lockedPkAt env st.last_freq = true) :
    (lockedStep env now st).locked = st.locked ∧
    (lockedStep env now st).lock_start = now ∧
    (lockedStep env now st).last_freq = st.last_freq := by
  simp [lockedStep, hpk]

/-- Failing re-checks that all happen before the next confirmation
(itself within the hold window) never unlock. -/
theorem runLocked_fails (f ls cN : Nat) (fails : List (Nat × LockEnv)) (st : AppSt)
    (hst : st.locked = true ∧ st.lock_start = ls ∧ st.last_freq = f)
    (hgap : cN - ls < ticks LOCK_HOLD_MS)
    (hf : ∀ p ∈ fails, lockedPkAt p.2 f = false ∧ ls ≤ p.1 ∧ p.1 ≤ cN) :
    (runLocked fails st).locked = true ∧
    (runLocked fails st).lock_start = ls ∧
    (runLocked fails st).last_freq = f := by
  induction fails generalizing st with
  | nil => simpa [runLocked] using hst
  | cons p rest ih =>
    obtain ⟨hpk, hle, hge⟩ := hf p (by simp)
    obtain ⟨h1, h2, h3⟩ := hst
    have hin : ¬ ticks LOCK_HOLD_MS < p.1 - st.lock_start := by
      rw [h2]; omega
    have hkeep := lockedStep_fail_keep p.2 p.1 st (by rw [h3]; exact hpk) hin
    have := ih (lockedStep p.2 p.1 st)
      ⟨by rw [hkeep.1, h1], by rw [hkeep.2.1, h2], by rw [hkeep.2.2, h3]⟩
      (fun q hq => hf q (by simp [hq]))
    simpa [runLocked] using this

/-- One well-formed round keeps the lock and moves the confirmation
timestamp to the round's confirmation instant. -/
theorem runLocked_round (f ls : Nat) (r : LockedRound) (st : AppSt)
    (hst : st.locked = true ∧ st.lock_start = ls ∧ st.last_freq = f)
    (hr : roundOk f ls r) :
    (runLocked (roundSteps r) st).locked = true ∧
    (runLocked (roundSteps r) st).lock_start = r.confirmNow ∧
    (runLocked (roundSteps r) st).last_freq = f := by
  obtain ⟨hfails, hcpk, hcle, hcgap⟩ := hr
  have h1 := runLocked_fails f ls r.confirmNow r.fails st hst hcgap hfails
  have h2 := lockedStep_confirm r.confirmEnv r.confirmNow (runLocked r.fails st)
    (by rw [h1.2.2]; exact hcpk)
  rw [roundSteps, runLocked_append]
  simp only [runLocked]
  exact ⟨by rw [h2.1, h1.1], by rw [h2.2.1], by rw [h2.2.2, h1.2.2]⟩

/-- A Locked execution made of well-formed rounds never unlocks. -/
theorem runLocked_rounds (f ls : Nat) (rs : List LockedRound) (st : AppSt)
    (hst : st.locked = true ∧ st.lock_start = ls ∧ st.last_freq = f)
    (h : roundsOk f ls rs) :
    (runLocked (roundsSteps rs) st).locked = true ∧
    (runLocked (roundsSteps rs) st).lock_start = roundsLast ls rs ∧
    (runLocked (roundsSteps rs) st).last_freq = f := by
  induction rs generalizing ls st with
  | nil => simpa [roundsSteps, runLocked, roundsLast] using hst
  | cons r rest ih =>
    obtain ⟨hr, hrest⟩ := h
    have h1 := runLocked_round f ls r st hst hr
    have h2 := ih r.confirmNow (runLocked (roundSteps r) st)
      ⟨h1.1, h1.2.1, h1.2.2⟩ hrest
    have hsplit : roundsSteps (r :: rest) = roundSteps r ++ roundsSteps rest := by
      simp [roundsSteps]
    rw [hsplit, runLocked_append]
    exact ⟨h2.1, by rw [h2.2.1]; simp [roundsLast], h2.2.2⟩

/-- The first dwell step of `envDetect` detects. -/
theorem hpk_envDetect : stepPk envDetect 0 = true := by
  simp [stepPk, envDetect, scanThreshold, stepBase, MIN_RSSI_DBM, THRESH_DB, persist]
  norm_num

/-- No dwell step of `envStaticPass` detects. -/
theorem hnopk_envStaticPass : ∀ i, stepPk envStaticPass i = false := by
  intro i
  simp [stepPk, envStaticPass, scanThreshold, stepBase, MIN_RSSI_DBM, THRESH_DB]
  norm_num

/-- The concrete locked state reached by running the `envDetect` pass
at tick 0 from the initial state. -/
theorem stLocked_eq : stLocked = ⟨true, 0, 389540000, MIN_RSSI_DBM, false⟩ := by
  simp [stLocked, scanPass, scanCnt, STATIC_CH, STATIC_FREQS, scanSteps, envDetect,
    stepPk, stepFreq, stepBase, scanThreshold, MIN_RSSI_DBM, THRESH_DB, persist,
    initAppSt]
  norm_num

/-- In `lockEnvQuiet`, re-confirmation on 389540000 Hz fails. -/
theorem lockedPkAt_quiet_false : lockedPkAt lockEnvQuiet 389540000 = false := by
  simp [lockedPkAt, lockEnvQuiet, lockedThreshold, MIN_RSSI_DBM, THRESH_DB,
    LOCK_RSSI_DROP]
  norm_num

/-- In `lockEnvConfirm`, re-confirmation on 389540000 Hz succeeds. -/
theorem lockedPkAt_confirm_true : lockedPkAt lockEnvConfirm 389540000 = true := by
  simp [lockedPkAt, lockEnvConfirm, lockedThreshold, MIN_RSSI_DBM, THRESH_DB,
    LOCK_RSSI_DROP, persist]
  norm_num

/-- A baseline-table read in the model yields the calibrated value in
bounds and the getD default 0 out of bounds. -/
theorem flatBaseline_getD (i : Nat) :
    flatBaseline.getD i 0 = MIN_RSSI_DBM ∨ flatBaseline.getD i 0 = 0 := by
  by_cases h : i < UP_NUM_CH
  · left
    simp [flatBaseline, List.getD_eq_getElem?_getD, List.getElem?_replicate, h]
  · right
    simp [flatBaseline, List.getD_eq_getElem?_getD, List.getElem?_replicate, h]

/-- No dwell step of `envMixedPass` detects. -/
theorem hnopk_envMixedPass : ∀ i, stepPk envMixedPass i = false := by
  intro i
  have hb : stepBase flatBaseline (decide (i < 17)) i = MIN_RSSI_DBM ∨
      stepBase flatBaseline (decide (i < 17)) i = 0 := by
    rw [stepBase]
    by_cases hf : i < 17
    · simpa [hf] using flatBaseline_getD i
    · simp [hf]
  rw [stepPk]
  rcases hb with h | h <;>
    simp [envMixedPass, scanThreshold, h, MIN_RSSI_DBM, THRESH_DB] <;> norm_num

/-- Claim C1: in a Scanning pass whose first dwell step passing both
the instantaneous check and the persistence check is step `k`, the
machine transitions to Locked with the locked frequency equal to
channel k's frequency, sets the last-confirmation timestamp
`lock_start` to the current time `now` (the tick of this loop
iteration), emits exactly one alert, and visits exactly the channels
0..k, none of the remaining channels of the pass. -/
theorem c1_lock_acquisition (env : ScanEnv) (now : Nat) (st : AppSt) (k : Nat)
    ( _hlock : st.locked = false)
    (hk : k < scanCnt env.freeScanCnt)
    (hfirst : ∀ j < k, stepPk env j = false)
    (hpk : stepPk env k = true)
    (hexit : ∀ j ≤ k, env.exitAt j = false) :
    (scanPass env now st).1.locked = true ∧
    (scanPass env now st).1.lock_start = now ∧
    (scanPass env now st).1.last_freq = stepFreq (env.freeScan k) k ∧
    (scanPass env now st).2.1 = 1 ∧
    (scanPass env now st).2.2 =
      (List.range (k + 1)).map (fun j => (j, stepFreq (env.freeScan j) j)) := by
  have h := scanSteps_first_pk env now st 0 (scanCnt env.freeScanCnt) k
    (Nat.zero_le k) (by omega) (fun j _ hj => hfirst j hj) hpk
    (fun j _ hj => hexit j hj)
  simpa [scanPass, List.range_eq_range'] using h

/-- Witness for C1: a Static-mode pass at tick 0 whose first step
detects locks on STATIC_FREQS[0] with one alert, visiting one step. -/
theorem c1_lock_acquisition_witness :
    (scanPass envDetect 0 initAppSt).1.locked = true ∧
    (scanPass envDetect 0 initAppSt).1.lock_start = 0 ∧
    (scanPass envDetect 0 initAppSt).1.last_freq = stepFreq (envDetect.freeScan 0) 0 ∧
    (scanPass envDetect 0 initAppSt).2.1 = 1 ∧
    (scanPass envDetect 0 initAppSt).2.2 =
      (List.range 1).map (fun j => (j, stepFreq (envDetect.freeScan j) j)) :=
  c1_lock_acquisition envDetect 0 initAppSt 0 rfl
    (by norm_num [scanCnt, STATIC_CH, STATIC_FREQS, envDetect])
    (fun j hj => absurd hj (Nat.not_lt_zero j))
    hpk_envDetect
    (fun j _ => rfl)

/-- Claim C2 (amended): while Locked, a re-check step without
confirmation transitions back to Scanning exactly when the time since
the last confirmation STRICTLY exceeds LOCK_HOLD (the code tests
`now - lock_start > ticks(LOCK_HOLD_MS)`, so at exactly LOCK_HOLD it
stays Locked); and in every execution whose successive confirmations
are separated by less than LOCK_HOLD, the machine never leaves the
Locked state. -/
theorem c2_lock_expiry_amended :
    (∀ (env : LockEnv) (now : Nat) (st : AppSt),
      st.locked = true → lockedPkAt env st.last_freq = false →
      ((lockedStep env now st).locked = false ↔
        ticks LOCK_HOLD_MS < now - st.lock_start)) ∧
    (∀ (st : AppSt) (rs : List LockedRound),
      st.locked = true → roundsOk st.last_freq st.lock_start rs →
      (runLocked (roundsSteps rs) st).locked = true) := by
  constructor
  · intro env now st hl hpk
    by_cases hex : ticks LOCK_HOLD_MS < now - st.lock_start
    · simp [lockedStep, hpk, hex]
    · simp [lockedStep, hpk, hex, hl]
  · intro st rs hl hok
    exact (runLocked_rounds st.last_freq st.lock_start rs st ⟨hl, rfl, rfl⟩ hok).1

/-- Witness for C2: on the concrete locked state, a failed re-check at
tick 25000 unlocks iff 20000 < 25000 - 0; and a single round
confirming at tick 100 keeps the machine Locked. -/
theorem c2_lock_expiry_witness :
    (((lockedStep lockEnvQuiet 25000 stLocked).locked = false) ↔
      ticks LOCK_HOLD_MS < 25000 - stLocked.lock_start) ∧
    (runLocked (roundsSteps [⟨[], 100, lockEnvConfirm⟩]) stLocked).locked = true := by
  constructor
  · exact c2_lock_expiry_amended.1 lockEnvQuiet 25000 stLocked
      (by rw [stLocked_eq]) (by rw [stLocked_eq]; exact lockedPkAt_quiet_false)
  · refine c2_lock_expiry_amended.2 stLocked [⟨[], 100, lockEnvConfirm⟩]
      (by rw [stLocked_eq]) ?_
    rw [stLocked_eq]
    refine ⟨⟨?_, ?_, ?_, ?_⟩, trivial⟩
    · intro p hp; cases hp
    · exact lockedPkAt_confirm_true
    · norm_num
    · norm_num [ticks, LOCK_HOLD_MS]

/-- Counterexample to C2 as stated: a machine locked since tick 0
takes a re-check step at tick 20000 with no confirmation, so no
confirmation has occurred for a duration of exactly LOCK_HOLD
(20000 >= LOCK_HOLD), yet the machine remains Locked, because the code
unlocks only on strict excess. -/
theorem c2_counterexample :
    stLocked.locked = true ∧
    lockedPkAt lockEnvQuiet stLocked.last_freq = false ∧
    ticks LOCK_HOLD_MS ≤ 20000 - stLocked.lock_start ∧
    (lockedStep lockEnvQuiet 20000 stLocked).locked = true := by
  rw [stLocked_eq]
  refine ⟨rfl, lockedPkAt_quiet_false, by norm_num [ticks, LOCK_HOLD_MS], ?_⟩
  simp [lockedStep, lockedPkAt_quiet_false, ticks, LOCK_HOLD_MS]

/-- Claim C3: for every baseline and every sensitivity in 1..5, the
non-locked detection threshold is baseline + MARGIN - sensitivity with
MARGIN = THRESH_DB = 8 dB, and the locked-state threshold is the
non-locked one minus LOCK_RSSI_DROP = 5 dB. -/
theorem c3_threshold_formulas (base sens : ℚ) ( _h1 : 1 ≤ sens) ( _h5 : sens ≤ 5) :
    scanThreshold base sens = base + 8 - sens ∧
    lockedThreshold base sens = scanThreshold base sens - 5 := by
  constructor
  · simp [scanThreshold, THRESH_DB]
  · simp [lockedThreshold, scanThreshold, LOCK_RSSI_DROP]

/-- Witness for C3: baseline -90 dBm at sensitivity 3 gives non-locked
threshold -85 and locked threshold -90. -/
theorem c3_threshold_witness :
    scanThreshold (-90) 3 = -90 + 8 - 3 ∧
    lockedThreshold (-90) 3 = scanThreshold (-90) 3 - 5 :=
  c3_threshold_formulas (-90) 3 (by norm_num) (by norm_num)

/-- Claim C4: for every threshold and slot sample sequence, persist
returns true iff every sample taken during the slot is at or above the
threshold, and returns false immediately at the first sample strictly
below the threshold, consuming no further samples. -/
theorem c4_persist_spec (threshold : ℚ) (samples : List ℚ) :
    (persist threshold samples = true ↔ ∀ r ∈ samples, threshold ≤ r) ∧
    (∀ pre r post, samples = pre ++ r :: post → (∀ x ∈ pre, threshold ≤ x) →
      r < threshold →
      persist threshold samples = false ∧
      samplesTaken threshold samples = pre.length + 1) := by
  refine ⟨persist_true_iff threshold samples, ?_⟩
  intro pre r post heq hpre hr
  rw [heq]
  exact persist_shortcircuit threshold pre r post hpre hr

/-- Witness for C4: with threshold 5 over samples [6, 3, 9], persist
fails and stops after the second sample. -/
theorem c4_persist_witness :
    persist 5 [6, 3, 9] = false ∧ samplesTaken 5 [6, 3, 9] = 2 := by
  have h := (c4_persist_spec 5 [6, 3, 9]).2 [6] 3 [9] rfl
    (by intro x hx; simp at hx; subst hx; norm_num) (by norm_num)
  simpa using h

/-- Claim C5 (amended): the number and indices of the dwell steps of
an in-progress pass are latched from the scan-mode flag observed when
the pass starts (a mid-pass toggle never changes them), but each
remaining step's frequency follows the flag observed at that very
step, so a mid-pass toggle changes the frequencies and baselines of
the remaining steps immediately; only the pass length switches at the
next pass. -/
theorem c5_pass_length_amended (env : ScanEnv) (now : Nat) (st : AppSt)
    (hnopk : ∀ i, stepPk env i = false)
    (hnoexit : ∀ i, env.exitAt i = false) :
    ((scanPass env now st).2.2).map Prod.fst = List.range (scanCnt env.freeScanCnt) ∧
    ∀ p ∈ (scanPass env now st).2.2, p.2 = stepFreq (env.freeScan p.1) p.1 := by
  have h := scanSteps_no_pk env now st 0 (scanCnt env.freeScanCnt)
    (fun j _ _ => hnopk j) (fun j _ _ => hnoexit j)
  simp only [scanPass] at h ⊢
  constructor
  · rw [h.2.2, List.range_eq_range', List.map_map]
    have hid : (Prod.fst ∘ fun j => (j, stepFreq (env.freeScan j) j)) = id := rfl
    rw [hid, List.map_id]
  · rw [h.2.2]
    intro p hp
    simp only [List.mem_map, List.mem_range'] at hp
    obtain ⟨j, _, rfl⟩ := hp
    rfl

/-- Witness for C5: a full Static-mode pass with no detection visits
exactly the step indices 0..STATIC_CH-1. -/
theorem c5_pass_length_witness :
    ((scanPass envStaticPass 0 initAppSt).2.2).map Prod.fst =
      List.range (scanCnt envStaticPass.freeScanCnt) :=
  (c5_pass_length_amended envStaticPass 0 initAppSt hnopk_envStaticPass
    (fun _ => rfl)).1

set_option maxRecDepth 8000 in
/-- Counterexample to C5 as stated: two identical Static-mode passes,
except that in the second the user toggles the scan mode to Sweep
after dwell step 0; step 1 of the unchanged pass tunes to
STATIC_FREQS[1] = 388790000 Hz, but step 1 of the toggled pass tunes
to the Sweep channel 380025000 Hz — the in-progress pass's remaining
channel list does change. -/
theorem c5_counterexample :
    (scanPass envStaticShort 0 initAppSt).2.2 = [(0, 389540000), (1, 388790000)] ∧
    (scanPass envToggledShort 0 initAppSt).2.2 = [(0, 389540000), (1, 380025000)] := by
  constructor <;>
    · simp [scanPass, scanCnt, STATIC_CH, STATIC_FREQS, scanSteps, envStaticShort,
        envToggledShort, envStaticPass, stepPk, stepFreq, stepBase, scanThreshold,
        MIN_RSSI_DBM, THRESH_DB, persist, initAppSt, flatBaseline,
        List.getElem?_replicate, UP_NUM_CH, UP_START_FREQ, UP_END_FREQ, FREQ_STEP]
      norm_num

/-- Claim C6: the detector's array indexing is NOT always in bounds.
This theorem evaluates the code at the failing inputs: a pass whose
length 201 was latched with the flag at Sweep reaches step 17 even
after a toggle back to Static, where the Static branch indexes
STATIC_FREQS (17 entries) at 17 — out of bounds (the model shows the
fabricated getD default 0 being tuned); and a machine locked on the
fixed-list frequency 389540000 Hz (or 379650000 Hz, which wraps in
uint32 arithmetic) with the flag at Sweep indexes the 201-entry
baseline table at 381 (respectively 171784) — out of bounds. -/
theorem c6_out_of_bounds :
    STATIC_CH = 17 ∧ UP_NUM_CH = 201 ∧
    17 < scanCnt true ∧
    STATIC_FREQS[17]? = none ∧
    stepFreq false 17 = 0 ∧
    (17, stepFreq false 17) ∈ (scanPass envMixedPass 0 initAppSt).2.2 ∧
    (389540000 : Nat) ∈ STATIC_FREQS ∧
    lockedBaseIdx 389540000 = 381 ∧ UP_NUM_CH ≤ lockedBaseIdx 389540000 ∧
    (379650000 : Nat) ∈ STATIC_FREQS ∧ UP_NUM_CH ≤ lockedBaseIdx 379650000 := by
  refine ⟨by decide, by decide, by decide, by decide, by decide, ?_,
    by decide, by decide, by decide, by decide, by decide⟩
  have h := scanSteps_no_pk envMixedPass 0 initAppSt 0 (scanCnt envMixedPass.freeScanCnt)
    (fun j _ _ => hnopk_envMixedPass j) (fun j _ _ => rfl)
  simp only [scanPass] at h ⊢
  rw [h.2.2]
  refine List.mem_map.mpr ⟨17, ?_, ?_⟩
  · simp [List.mem_range', scanCnt, envMixedPass, UP_NUM_CH, UP_START_FREQ,
      UP_END_FREQ, FREQ_STEP]
  · simp [envMixedPass]

/-- Claim C7: in every loop iteration, the one-shot alert count is 1
exactly when the iteration makes a Scanning-to-Locked transition: the
Locked branch (re-confirmation and unlock included) emits none, and a
Scanning pass emits exactly one iff it acquires the lock. -/
theorem c7_alert_once (lenv : LockEnv) (senv : ScanEnv) (now : Nat) (st : AppSt) :
    (machineStep lenv senv now st).2 =
      if st.locked = false ∧ (machineStep lenv senv now st).1.locked = true
      then 1 else 0 := by
  by_cases h : st.locked
  · simp [machineStep, h]
  · have hb : st.locked = false := by simpa using h
    have ha := scanSteps_alerts senv now st 0 (scanCnt senv.freeScanCnt) hb
    simp only [machineStep, scanPass, hb, Bool.false_eq_true, if_false, ha]
    by_cases hres :
        (scanSteps senv now st 0 (scanCnt senv.freeScanCnt)).1.locked = true <;>
      simp [hres]

/-- Claim C8 (amended): the code keeps the lock indicator as the sole
lock marker; the Locked-to-Scanning transition clears only `locked`
and leaves `last_freq` (the locked frequency, also used for display
and resume) unchanged rather than clearing it. -/
theorem c8_unlock_amended (env : LockEnv) (now : Nat) (st : AppSt)
    ( _hl : st.locked = true) (hpk : lockedPkAt env st.last_freq = false)
    (hex : ticks LOCK_HOLD_MS < now - st.lock_start) :
    (lockedStep env now st).locked = false ∧
    (lockedStep env now st).last_freq = st.last_freq ∧
    (lockedStep env now st).lock_start = st.lock_start := by
  simp [lockedStep, hpk, hex]

/-- Witness for C8: the concrete locked state unlocked at tick 20001
keeps its `last_freq` and `lock_start`. -/
theorem c8_unlock_witness :
    (lockedStep lockEnvQuiet 20001 stLocked).locked = false ∧
    (lockedStep lockEnvQuiet 20001 stLocked).last_freq = stLocked.last_freq ∧
    (lockedStep lockEnvQuiet 20001 stLocked).lock_start = stLocked.lock_start :=
  c8_unlock_amended lockEnvQuiet 20001 stLocked
    (by rw [stLocked_eq]) (by rw [stLocked_eq]; exact lockedPkAt_quiet_false)
    (by rw [stLocked_eq]; norm_num [ticks, LOCK_HOLD_MS])

/-- Counterexample to C8 as stated: a machine locked on 389540000 Hz
unlocks at tick 20001, transitioning Locked to Scanning, yet its
locked-frequency field still holds 389540000 — the transition does not
clear it. -/
theorem c8_counterexample :
    stLocked.locked = true ∧ stLocked.last_freq = 389540000 ∧
    (lockedStep lockEnvQuiet 20001 stLocked).locked = false ∧
    (lockedStep lockEnvQuiet 20001 stLocked).last_freq = 389540000 := by
  rw [stLocked_eq]
  refine ⟨rfl, rfl, ?_, ?_⟩ <;>
    simp [lockedStep, lockedPkAt_quiet_false, ticks, LOCK_HOLD_MS]

/-- Claim C9: if the display surface, the notification record, the
registry radio device, or the device session `begin` is unavailable at
startup, the process returns -1 (non-zero) immediately, calibration
never runs and the scan loop is never entered. -/
theorem c9_fail_fast (e : StartupEnv)
    (h : e.guiOk = false ∨ e.notifOk = false ∨ e.deviceFound = false ∨
      e.beginOk = false) :
    startup e =
      { retCode := some (-1), calibrated := false, scanLoopEntered := false } ∧
    (-1 : Int) ≠ 0 := by
  obtain ⟨g, n, d, b⟩ := e
  cases g <;> cases n <;> cases d <;> cases b <;> simp_all [startup]

/-- Witness for C9: a missing display surface aborts startup with -1,
before calibration and before the scan loop. -/
theorem c9_fail_fast_witness :
    startup ⟨false, true, true, true⟩ =
      { retCode := some (-1), calibrated := false, scanLoopEntered := false } ∧
    (-1 : Int) ≠ 0 :=
  c9_fail_fast ⟨false, true, true, true⟩ (Or.inl rfl)

/-- Claim C10: from every sensitivity in 1..5, the cycle-sensitivity
input yields the next value of the cycle 1-2-3-4-5-1; cycling up from
5 yields 1, and the result is never 0 or 6. -/
theorem c10_sens_cycle (sens : Int) (h1 : 1 ≤ sens) (h5 : sens ≤ 5) :
    cycleSens sens = (if sens = 5 then 1 else sens + 1) ∧
    1 ≤ cycleSens sens ∧ cycleSens sens ≤ 5 ∧
    cycleSens sens ≠ 0 ∧ cycleSens sens ≠ 6 := by
  interval_cases sens <;> norm_num [cycleSens]

/-- Witness for C10: cycling up from sensitivity 5 yields 1. -/
theorem c10_sens_cycle_witness :
    cycleSens 5 = (if (5 : Int) = 5 then 1 else 5 + 1) ∧
    1 ≤ cycleSens 5 ∧ cycleSens 5 ≤ 5 ∧
    cycleSens 5 ≠ 0 ∧ cycleSens 5 ≠ 6 :=
  c10_sens_cycle 5 (by norm_num) (by norm_num)

end TetraDetector
